import Mathlib

/-!
Verification of the MCP protocol core of `mcp-go-template`.

The definitions below are a shallow embedding of the Go sources:
  - `pkg/mcp/types.go` (message envelope, error codes, capability types),
  - `pkg/mcp/handler.go` (BaseHandler: registration, dispatch, session state),
  - `pkg/mcp/validation.go` (schema and argument validation),
  - `internal/prompts/registry.go` (the prompt Registry).

Modelling conventions:
  - Go `interface{}` values decoded from JSON are modelled by the inductive
    `Value`; a Go `float64` is carried as `Rat` (every JSON number the code
    compares is a finite double, a subset of the rationals, and the
    comparisons agree with the rational ones; the `int64` truncation is
    modelled range-aware, see `goInt64OfFloat`), and a Go `int` that did
    not come from JSON is carried separately as `Value.int`, because Go
    type assertions distinguish the two dynamic types.
  - Go maps `map[string]T` are association lists with first-match lookup;
    Go guarantees unique keys, and every property the code relies on
    (membership, overwrite on assignment) is proved for this model.
  - Go `nil` maps/pointers are `Option.none`.
  - A Go function returning `error` is modelled with `Except String`;
    an error result never mutates state, matching the Go code, whose early
    returns precede every mutation.
  - A Go panic from an unchecked type assertion (or an unhashable map key) is
    folded into the error monad with a message starting `panic:`; no theorem
    below depends on a panic path.
  - Mutexes and goroutines are not modelled: each theorem is about one
    sequential run of the code.
-/

set_option autoImplicit false

set_option maxRecDepth 8000

namespace MCPGo

/-! ## Go map primitives (association lists) -/

/-- Lookup in a Go `map[string]α` modelled as an association list. -/
def mapLookup {α : Type} : List (String × α) → String → Option α
  | [], _ => none
  | (k2, v) :: rest, k => if k2 = k then some v else mapLookup rest k

/-- Go map assignment `m[k] = v`: overwrite the entry if present, else add it. -/
def mapInsert {α : Type} : List (String × α) → String → α → List (String × α)
  | [], k, v => [(k, v)]
  | (k2, v2) :: rest, k, v =>
      if k2 = k then (k, v) :: rest else (k2, v2) :: mapInsert rest k v

/-- A Go `for` loop over a list that returns the first error, `nil` otherwise. -/
def firstError {α : Type} (f : α → Except String Unit) : List α → Except String Unit
  | [] => .ok ()
  | x :: xs =>
      match f x with
      | .error e => .error e
      | .ok _ => firstError f xs

/-- Whether an `Except` result is an error (a non-nil Go `error`). -/
def isErr {ε α : Type} : Except ε α → Bool
  | .error _ => true
  | .ok _ => false

/-- A Go panic (unchecked type assertion, unhashable map key), folded into the
error monad with a marked message. No claim depends on a panic path. -/
def goPanic {α : Type} (msg : String) : Except String α := .error ("panic: " ++ msg)

/-! ## Dynamic values (Go `interface{}` holding decoded JSON) -/

/-- A dynamic Go value as produced by `encoding/json` (plus `int`, which Go
code may place in an argument map directly; it is a distinct dynamic type). -/
inductive Value where
  | null
  | bool (b : Bool)
  | num (x : Rat)
  | int (n : Int)
  | str (s : String)
  | arr (elems : List Value)
  | obj (fields : List (String × Value))

/-! ## types.go: protocol constants, envelope, capability types -/

/-- types.go: `MCPVersion = "2024-11-05"`. -/
def MCPVersion : String := "2024-11-05"

def ParseError : Int := -32700
def InvalidRequest : Int := -32600
def MethodNotFound : Int := -32601
def InvalidParams : Int := -32602
def InternalError : Int := -32603
def InvalidMCPVersion : Int := -32000
def UnknownCapability : Int := -32001
def ResourceNotFound : Int := -32002
def ToolNotFound : Int := -32003
def PromptNotFound : Int := -32004

/-- types.go: `RequestID interface{}` — a JSON-RPC id is a string or a number;
absence (Go `nil`) is modelled by `Option RequestID` at each use site. -/
inductive RequestID where
  | str (s : String)
  | num (x : Rat)

/-- types.go: `ErrorInfo`. -/
structure ErrorInfo where
  code : Int
  message : String
  data : Option Value

/-- types.go: `ClientInfo`. -/
structure ClientInfo where
  name : String
  version : String

/-- types.go: `ServerInfo`. -/
structure ServerInfo where
  name : String
  version : String

/-- types.go: `LoggingCapability` (empty struct). -/
structure LoggingCapability where

/-- types.go: `PromptsCapability`. -/
structure PromptsCapability where
  listChanged : Bool

/-- types.go: `ResourcesCapability`. -/
structure ResourcesCapability where
  subscribe : Bool
  listChanged : Bool

/-- types.go: `ToolsCapability`. -/
structure ToolsCapability where
  listChanged : Bool

/-- types.go: `ClientCapabilities` (two free-form maps, `nil` allowed). -/
structure ClientCapabilities where
  experimental : Option (List (String × Value))
  sampling : Option (List (String × Value))

/-- types.go: `ServerCapabilities` (presence of a block signals support). -/
structure ServerCapabilities where
  logging : Option LoggingCapability
  prompts : Option PromptsCapability
  resources : Option ResourcesCapability
  tools : Option ToolsCapability
  experimental : Option (List (String × Value))

/-- types.go: `ToolSchema`. `properties` is a Go map that may be `nil`
(`none`) or empty (`some []`); the code distinguishes the two. -/
structure ToolSchema where
  type : String
  properties : Option (List (String × Value))
  required : List String

/-- types.go: `Tool`. -/
structure Tool where
  name : String
  description : String
  inputSchema : ToolSchema

/-- types.go: `CallToolParams` (`Arguments` may be a `nil` map). -/
structure CallToolParams where
  name : String
  arguments : Option (List (String × Value))

/-- types.go: `Content`. -/
structure Content where
  type : String
  text : String
  data : String
  mimeType : String
  blob : Option Value

/-- types.go: `CallToolResult`. -/
structure CallToolResult where
  content : List Content
  isError : Bool

/-- types.go: `Resource`. -/
structure Resource where
  uri : String
  name : String
  description : String
  mimeType : String

/-- types.go: `ReadResourceParams`. -/
structure ReadResourceParams where
  uri : String

/-- types.go: `ResourceContents`. -/
structure ResourceContents where
  uri : String
  mimeType : String
  text : String
  blob : String

/-- types.go: `ReadResourceResult`. -/
structure ReadResourceResult where
  contents : List ResourceContents

/-- types.go: `PromptArgument`. -/
structure PromptArgument where
  name : String
  description : String
  required : Bool

/-- types.go: `Prompt`. -/
structure Prompt where
  name : String
  description : String
  arguments : List PromptArgument

/-- types.go: `GetPromptParams`. -/
structure GetPromptParams where
  name : String
  arguments : Option (List (String × Value))

/-- types.go: `PromptMessage`. -/
structure PromptMessage where
  role : String
  content : List Content

/-- types.go: `GetPromptResult`. -/
structure GetPromptResult where
  description : String
  messages : List PromptMessage

/-- types.go: `InitializeParams`. -/
structure InitializeParams where
  protocolVersion : String
  capabilities : ClientCapabilities
  clientInfo : ClientInfo
  meta : Option (List (String × Value))

/-- types.go: `InitializeResult`. -/
structure InitializeResult where
  protocolVersion : String
  capabilities : ServerCapabilities
  serverInfo : ServerInfo
  instructions : String

/-- The typed payload a success response carries (Go stores it as
`interface{}`; these are exactly the values `handleRequest` ever places
there — the list results are wrapped in a one-key map in Go, kept implicit
here). A `ListTools`-style result holds `Option` elements because Go
collects `*Tool` pointers, which may be nil. -/
inductive ResultPayload where
  | initializeResult (r : InitializeResult)
  | toolsList (tools : List (Option Tool))
  | callToolResult (r : CallToolResult)
  | resourcesList (resources : List (Option Resource))
  | readResourceResult (r : ReadResourceResult)
  | promptsList (prompts : List (Option Prompt))
  | getPromptResult (r : GetPromptResult)

/-- types.go: `Message` — the wire envelope. Go `Method string` uses `""`
for "absent" (the `omitempty` JSON convention), which the classification
code tests directly; `ID`, `Params`, `Result`, `Error` are nilable. -/
structure Message where
  jsonrpc : String
  id : Option RequestID
  method : String
  params : Option Value
  result : Option ResultPayload
  error : Option ErrorInfo

/-- types.go: `NewErrorResponse`. -/
def NewErrorResponse (id : Option RequestID) (code : Int) (message : String)
    (data : Option Value) : Message :=
  { jsonrpc := "2.0", id := id, method := "", params := none, result := none,
    error := some { code := code, message := message, data := data } }

/-- types.go: `NewSuccessResponse`. -/
def NewSuccessResponse (id : Option RequestID) (result : ResultPayload) : Message :=
  { jsonrpc := "2.0", id := id, method := "", params := none,
    result := some result, error := none }

/-- types.go: `NewRequest`. -/
def NewRequest (id : Option RequestID) (method : String) (params : Option Value) : Message :=
  { jsonrpc := "2.0", id := id, method := method, params := params,
    result := none, error := none }

/-- types.go: `NewNotification`. -/
def NewNotification (method : String) (params : Option Value) : Message :=
  { jsonrpc := "2.0", id := none, method := method, params := params,
    result := none, error := none }

/-- types.go: `Message.IsRequest` — `m.Method != "" && m.ID != nil`. -/
def Message.IsRequest (m : Message) : Bool :=
  m.method != "" && m.id.isSome

/-- types.go: `Message.IsNotification` — `m.Method != "" && m.ID == nil`. -/
def Message.IsNotification (m : Message) : Bool :=
  m.method != "" && m.id.isNone

/-- types.go: `Message.IsResponse` — `m.Method == "" && m.ID != nil`. -/
def Message.IsResponse (m : Message) : Bool :=
  m.method == "" && m.id.isSome

/-- types.go: `Message.HasError`. -/
def Message.HasError (m : Message) : Bool :=
  m.error.isSome

/-! ## types.go: `Message.UnmarshalParams`

Go re-marshals `m.Params` to JSON and unmarshals it into the target struct.
The decoders below mirror `encoding/json` unmarshalling for each target
type: the top-level value must be a JSON object (or `null`, which leaves
the zero value); a missing field leaves the zero value; `null` for a field
leaves the zero value; a type mismatch is an error; unknown fields are
ignored. -/

/-- `encoding/json` into a `string` field: missing handled by the caller,
`null` keeps the zero value, anything but a string is an error. -/
def decodeStringField (fields : List (String × Value)) (key : String) :
    Except String String :=
  match mapLookup fields key with
  | none => .ok ""
  | some .null => .ok ""
  | some (.str s) => .ok s
  | some _ => .error ("cannot unmarshal into string field " ++ key)

/-- `encoding/json` into a `map[string]interface\x7b\x7d` field. -/
def decodeMapField (fields : List (String × Value)) (key : String) :
    Except String (Option (List (String × Value))) :=
  match mapLookup fields key with
  | none => .ok none
  | some .null => .ok none
  | some (.obj m) => .ok (some m)
  | some _ => .error ("cannot unmarshal into map field " ++ key)

/-- `encoding/json` into `CallToolParams`. -/
def decodeCallToolParams (v : Value) : Except String CallToolParams :=
  match v with
  | .null => .ok { name := "", arguments := none }
  | .obj fields => do
      let name ← decodeStringField fields "name"
      let args ← decodeMapField fields "arguments"
      .ok { name := name, arguments := args }
  | _ => .error "cannot unmarshal into CallToolParams"

/-- `encoding/json` into `ClientInfo`. -/
def decodeClientInfo (v : Value) : Except String ClientInfo :=
  match v with
  | .null => .ok { name := "", version := "" }
  | .obj fields => do
      let name ← decodeStringField fields "name"
      let version ← decodeStringField fields "version"
      .ok { name := name, version := version }
  | _ => .error "cannot unmarshal into ClientInfo"

/-- `encoding/json` into `ClientCapabilities`. -/
def decodeClientCapabilities (v : Value) : Except String ClientCapabilities :=
  match v with
  | .null => .ok { experimental := none, sampling := none }
  | .obj fields => do
      let experimental ← decodeMapField fields "experimental"
      let sampling ← decodeMapField fields "sampling"
      .ok { experimental := experimental, sampling := sampling }
  | _ => .error "cannot unmarshal into ClientCapabilities"

/-- `encoding/json` into `InitializeParams`. -/
def decodeInitializeParams (v : Value) : Except String InitializeParams :=
  match v with
  | .null =>
      .ok { protocolVersion := "",
            capabilities := { experimental := none, sampling := none },
            clientInfo := { name := "", version := "" }, meta := none }
  | .obj fields => do
      let protocolVersion ← decodeStringField fields "protocolVersion"
      let capabilities ←
        match mapLookup fields "capabilities" with
        | none => Except.ok { experimental := none, sampling := none }
        | some cv => decodeClientCapabilities cv
      let clientInfo ←
        match mapLookup fields "clientInfo" with
        | none => Except.ok { name := "", version := "" }
        | some cv => decodeClientInfo cv
      let meta ← decodeMapField fields "meta"
      .ok { protocolVersion := protocolVersion, capabilities := capabilities,
            clientInfo := clientInfo, meta := meta }
  | _ => .error "cannot unmarshal into InitializeParams"

/-- `encoding/json` into `ReadResourceParams`. -/
def decodeReadResourceParams (v : Value) : Except String ReadResourceParams :=
  match v with
  | .null => .ok { uri := "" }
  | .obj fields => do
      let uri ← decodeStringField fields "uri"
      .ok { uri := uri }
  | _ => .error "cannot unmarshal into ReadResourceParams"

/-- `encoding/json` into `GetPromptParams`. -/
def decodeGetPromptParams (v : Value) : Except String GetPromptParams :=
  match v with
  | .null => .ok { name := "", arguments := none }
  | .obj fields => do
      let name ← decodeStringField fields "name"
      let args ← decodeMapField fields "arguments"
      .ok { name := name, arguments := args }
  | _ => .error "cannot unmarshal into GetPromptParams"

/-- types.go: `Message.UnmarshalParams`, parametrised by the decoder for the
target struct (Go dispatches on it through reflection). Fails with
`no params to unmarshal` when `m.Params` is nil. -/
def Message.unmarshalParamsWith {α : Type} (m : Message)
    (dec : Value → Except String α) : Except String α :=
  match m.params with
  | none => .error "no params to unmarshal"
  | some v => dec v

/-! ## handler.go: handler interfaces and `BaseHandler` -/

/-- handler.go: the `ToolHandler` interface. `Definition` returns a `*Tool`
(nilable); `Execute` takes the argument map and returns a result or a Go
error (the context parameter carries no information used by the core). -/
structure ToolHandler where
  definition : Option Tool
  execute : Option (List (String × Value)) → Except String CallToolResult

/-- handler.go: the `ResourceHandler` interface. -/
structure ResourceHandler where
  definition : Option Resource
  read : String → Except String ReadResourceResult

/-- handler.go: the `PromptHandler` interface. -/
structure PromptHandler where
  definition : Option Prompt
  generate : Option (List (String × Value)) → Except String GetPromptResult

/-- handler.go: `BaseHandler`. -/
structure BaseHandler where
  serverInfo : ServerInfo
  capabilities : ServerCapabilities
  tools : List (String × ToolHandler)
  resources : List (String × ResourceHandler)
  prompts : List (String × PromptHandler)
  initialized : Bool

/-- handler.go: `NewBaseHandler`. -/
def NewBaseHandler (serverInfo : ServerInfo) (capabilities : ServerCapabilities) :
    BaseHandler :=
  { serverInfo := serverInfo, capabilities := capabilities,
    tools := [], resources := [], prompts := [], initialized := false }

/-- handler.go: `BaseHandler.RegisterTool`. Note: no duplicate check — the
map assignment overwrites any handler already stored under the name. -/
def BaseHandler.RegisterTool (h : BaseHandler) (handler : ToolHandler) :
    Except String BaseHandler :=
  match handler.definition with
  | none => .error "tool definition cannot be nil"
  | some tool =>
      if tool.name = "" then .error "tool name cannot be empty"
      else .ok { h with tools := mapInsert h.tools tool.name handler }

/-- handler.go: `BaseHandler.RegisterResource`. -/
def BaseHandler.RegisterResource (h : BaseHandler) (handler : ResourceHandler) :
    Except String BaseHandler :=
  match handler.definition with
  | none => .error "resource definition cannot be nil"
  | some resource =>
      if resource.uri = "" then .error "resource URI cannot be empty"
      else .ok { h with resources := mapInsert h.resources resource.uri handler }

/-- handler.go: `BaseHandler.RegisterPrompt`. -/
def BaseHandler.RegisterPrompt (h : BaseHandler) (handler : PromptHandler) :
    Except String BaseHandler :=
  match handler.definition with
  | none => .error "prompt definition cannot be nil"
  | some prompt =>
      if prompt.name = "" then .error "prompt name cannot be empty"
      else .ok { h with prompts := mapInsert h.prompts prompt.name handler }

/-- handler.go: `BaseHandler.Initialize`. Does not flip the `initialized`
flag — only the `initialized` notification does. -/
def BaseHandler.Initialize (h : BaseHandler) (params : InitializeParams) :
    Except String InitializeResult :=
  if params.protocolVersion ≠ MCPVersion then
    .error ("unsupported protocol version: " ++ params.protocolVersion)
  else
    .ok { protocolVersion := MCPVersion, capabilities := h.capabilities,
          serverInfo := h.serverInfo, instructions := "" }

/-- handler.go: `BaseHandler.ListTools` (never fails). -/
def BaseHandler.ListTools (h : BaseHandler) : Except String (List (Option Tool)) :=
  .ok (h.tools.map (fun p => p.2.definition))

/-- handler.go: `BaseHandler.CallTool`. Requires the initialized flag; a
missing tool is a Go error; an execute fault is converted into a successful
`CallToolResult` flagged `isError` and carrying the fault text. -/
def BaseHandler.CallTool (h : BaseHandler) (params : CallToolParams) :
    Except String CallToolResult :=
  if !h.initialized then .error "handler not initialized"
  else
    match mapLookup h.tools params.name with
    | none => .error ("tool '" ++ params.name ++ "' not found")
    | some handler =>
        match handler.execute params.arguments with
        | .error e =>
            .ok { content := [{ type := "text",
                                text := "Tool execution failed: " ++ e,
                                data := "", mimeType := "", blob := none }],
                  isError := true }
        | .ok result => .ok result

/-- handler.go: `BaseHandler.ListResources` (never fails). -/
def BaseHandler.ListResources (h : BaseHandler) :
    Except String (List (Option Resource)) :=
  .ok (h.resources.map (fun p => p.2.definition))

/-- handler.go: `BaseHandler.ReadResource`. -/
def BaseHandler.ReadResource (h : BaseHandler) (params : ReadResourceParams) :
    Except String ReadResourceResult :=
  if !h.initialized then .error "handler not initialized"
  else
    match mapLookup h.resources params.uri with
    | none => .error ("resource '" ++ params.uri ++ "' not found")
    | some handler => handler.read params.uri

/-- handler.go: `BaseHandler.ListPrompts` (never fails). -/
def BaseHandler.ListPrompts (h : BaseHandler) :
    Except String (List (Option Prompt)) :=
  .ok (h.prompts.map (fun p => p.2.definition))

/-- handler.go: `BaseHandler.GetPrompt`. -/
def BaseHandler.GetPrompt (h : BaseHandler) (params : GetPromptParams) :
    Except String GetPromptResult :=
  if !h.initialized then .error "handler not initialized"
  else
    match mapLookup h.prompts params.name with
    | none => .error ("prompt '" ++ params.name ++ "' not found")
    | some handler => handler.generate params.arguments

/-- handler.go: `BaseHandler.IsInitialized`. -/
def BaseHandler.IsInitialized (h : BaseHandler) : Bool :=
  h.initialized

/-- handler.go: `handleRequest`. Dispatch on the method name; every branch
produces a response message (the Go `error` return is always nil). -/
def handleRequest (h : BaseHandler) (message : Message) : Message :=
  match message.method with
  | "initialize" =>
      match Message.unmarshalParamsWith message decodeInitializeParams with
      | .error e =>
          NewErrorResponse message.id InvalidParams "invalid initialize params"
            (some (.str e))
      | .ok params =>
          match h.Initialize params with
          | .error e =>
              NewErrorResponse message.id InternalError "initialization failed"
                (some (.str e))
          | .ok result => NewSuccessResponse message.id (.initializeResult result)
  | "tools/list" =>
      match h.ListTools with
      | .error e =>
          NewErrorResponse message.id InternalError "failed to list tools"
            (some (.str e))
      | .ok tools => NewSuccessResponse message.id (.toolsList tools)
  | "tools/call" =>
      match Message.unmarshalParamsWith message decodeCallToolParams with
      | .error e =>
          NewErrorResponse message.id InvalidParams "invalid tool call params"
            (some (.str e))
      | .ok params =>
          match h.CallTool params with
          | .error e =>
              NewErrorResponse message.id InternalError "tool call failed"
                (some (.str e))
          | .ok result => NewSuccessResponse message.id (.callToolResult result)
  | "resources/list" =>
      match h.ListResources with
      | .error e =>
          NewErrorResponse message.id InternalError "failed to list resources"
            (some (.str e))
      | .ok resources => NewSuccessResponse message.id (.resourcesList resources)
  | "resources/read" =>
      match Message.unmarshalParamsWith message decodeReadResourceParams with
      | .error e =>
          NewErrorResponse message.id InvalidParams "invalid resource read params"
            (some (.str e))
      | .ok params =>
          match h.ReadResource params with
          | .error e =>
              NewErrorResponse message.id InternalError "resource read failed"
                (some (.str e))
          | .ok result => NewSuccessResponse message.id (.readResourceResult result)
  | "prompts/list" =>
      match h.ListPrompts with
      | .error e =>
          NewErrorResponse message.id InternalError "failed to list prompts"
            (some (.str e))
      | .ok prompts => NewSuccessResponse message.id (.promptsList prompts)
  | "prompts/get" =>
      match Message.unmarshalParamsWith message decodeGetPromptParams with
      | .error e =>
          NewErrorResponse message.id InvalidParams "invalid prompt get params"
            (some (.str e))
      | .ok params =>
          match h.GetPrompt params with
          | .error e =>
              NewErrorResponse message.id InternalError "prompt get failed"
                (some (.str e))
          | .ok result => NewSuccessResponse message.id (.getPromptResult result)
  | _ =>
      NewErrorResponse message.id MethodNotFound
        ("method '" ++ message.method ++ "' not found") none

/-- handler.go: `handleNotification`. Mutates the session flag on
`initialized`; never produces a response. -/
def handleNotification (h : BaseHandler) (message : Message) :
    BaseHandler × Option Message :=
  match message.method with
  | "initialized" => ({ h with initialized := true }, none)
  | "notifications/cancelled" => (h, none)
  | _ => (h, none)

/-- handler.go: `BaseHandler.HandleMessage`. The `Option Message` argument
models the nilable `*Message`; the returned pair is (possibly updated
session state, optional response). The Go `error` return is always nil. -/
def BaseHandler.HandleMessage (h : BaseHandler) (message : Option Message) :
    BaseHandler × Option Message :=
  match message with
  | none => (h, some (NewErrorResponse none InvalidRequest "message cannot be nil" none))
  | some m =>
      if m.IsRequest then (h, some (handleRequest h m))
      else if m.IsNotification then handleNotification h m
      else (h, some (NewErrorResponse m.id InvalidRequest "invalid message format" none))

/-! ## internal/prompts/registry.go: the prompt `Registry` -/

/-- registry.go: `Registry` (the mutex is not modelled; each theorem is
about one sequential run). -/
structure Registry where
  prompts : List (String × PromptHandler)

/-- registry.go: `NewRegistry`. -/
def NewRegistry : Registry := { prompts := [] }

/-- registry.go: `Registry.Register` — rejects a nil definition, an empty
name, and a name that is already registered. -/
def Registry.Register (r : Registry) (handler : PromptHandler) :
    Except String Registry :=
  match handler.definition with
  | none => .error "prompt definition cannot be nil"
  | some prompt =>
      if prompt.name = "" then .error "prompt name cannot be empty"
      else
        match mapLookup r.prompts prompt.name with
        | some _ => .error ("prompt '" ++ prompt.name ++ "' is already registered")
        | none => .ok { prompts := mapInsert r.prompts prompt.name handler }

/-- registry.go: `Registry.Unregister`. -/
def Registry.Unregister (r : Registry) (name : String) : Except String Registry :=
  match mapLookup r.prompts name with
  | none => .error ("prompt '" ++ name ++ "' is not registered")
  | some _ => .ok { prompts := r.prompts.filter (fun p => p.1 ≠ name) }

/-- registry.go: `Registry.Get`. -/
def Registry.Get (r : Registry) (name : String) : Except String PromptHandler :=
  match mapLookup r.prompts name with
  | none => .error ("prompt '" ++ name ++ "' not found")
  | some handler => .ok handler

/-- registry.go: `Registry.HasPrompt`. -/
def Registry.HasPrompt (r : Registry) (name : String) : Bool :=
  (mapLookup r.prompts name).isSome

/-- registry.go: `Registry.Count`. -/
def Registry.Count (r : Registry) : Nat :=
  r.prompts.length

/-! ## validation.go: schema and argument validation -/

/-- validation.go: the recognised property kinds (`validTypes`). -/
def validTypes : List String :=
  ["string", "number", "integer", "boolean", "array", "object"]

/-- validation.go: the shared shape of the `minLength`/`maxLength`/`minItems`/
`maxItems`/`minProperties`/`maxProperties` checks: if present the value must
be a number (`float64`) and non-negative. -/
def checkNonNegNumField (prop : List (String × Value)) (key : String) :
    Except String Unit :=
  match mapLookup prop key with
  | none => .ok ()
  | some (.num x) =>
      if x < 0 then .error (key ++ " cannot be negative") else .ok ()
  | some _ => .error (key ++ " must be a number")

/-- validation.go: the enum check inside `validateStringProperty`: an array,
non-empty, every member a string (the first offender is reported with its
index). -/
def checkEnumMembers (i : Nat) : List Value → Except String Unit
  | [] => .ok ()
  | .str _ :: rest => checkEnumMembers (i + 1) rest
  | _ :: _ => .error ("enum value at index " ++ toString i ++ " must be a string")

/-- validation.go: `validateStringProperty`. -/
def validateStringProperty (prop : List (String × Value)) : Except String Unit := do
  match mapLookup prop "enum" with
  | none => Except.ok ()
  | some (.arr enumSlice) =>
      if enumSlice.length = 0 then Except.error "enum cannot be empty"
      else checkEnumMembers 0 enumSlice
  | some _ => Except.error "enum must be an array"
  checkNonNegNumField prop "minLength"
  checkNonNegNumField prop "maxLength"
  match mapLookup prop "pattern" with
  | none => Except.ok ()
  | some (.str _) => Except.ok ()
  | some _ => Except.error "pattern must be a string"

/-- validation.go: reading an optional numeric bound (`minimum`/`maximum`)
with a checked `float64` assertion. -/
def getNumField (prop : List (String × Value)) (key : String) :
    Except String (Option Rat) :=
  match mapLookup prop key with
  | none => .ok none
  | some (.num x) => .ok (some x)
  | some _ => .error (key ++ " must be a number")

/-- validation.go: `exclusiveMinimum`/`exclusiveMaximum` must be a boolean
or a number if present. -/
def checkExclusiveField (prop : List (String × Value)) (key : String) :
    Except String Unit :=
  match mapLookup prop key with
  | none => .ok ()
  | some (.bool _) => .ok ()
  | some (.num _) => .ok ()
  | some _ => .error (key ++ " must be a boolean or number")

/-- validation.go: `validateNumericProperty`. The Go error message carries
the two offending bounds formatted with `%f`; the formatted values are
elided here. -/
def validateNumericProperty (prop : List (String × Value)) : Except String Unit := do
  let minimum ← getNumField prop "minimum"
  let maximum ← getNumField prop "maximum"
  match minimum, maximum with
  | some mn, some mx =>
      if mn > mx then Except.error "minimum cannot be greater than maximum"
      else Except.ok ()
  | _, _ => Except.ok ()
  checkExclusiveField prop "exclusiveMinimum"
  checkExclusiveField prop "exclusiveMaximum"

/-- validation.go: `validateArrayProperty`. -/
def validateArrayProperty (prop : List (String × Value)) : Except String Unit := do
  checkNonNegNumField prop "minItems"
  checkNonNegNumField prop "maxItems"
  match mapLookup prop "uniqueItems" with
  | none => Except.ok ()
  | some (.bool _) => Except.ok ()
  | some _ => Except.error "uniqueItems must be a boolean"

/-- validation.go: `validateObjectProperty`. -/
def validateObjectProperty (prop : List (String × Value)) : Except String Unit := do
  checkNonNegNumField prop "minProperties"
  checkNonNegNumField prop "maxProperties"

/-- validation.go: `validateProperty`. Go checks: nil, map shape, presence
and stringness of `type`, membership of `type` in `validTypes`, then the
kind-specific constraints (`boolean` has no extra constraints). -/
def validateProperty (name : String) (property : Value) : Except String Unit :=
  match property with
  | .null => .error "property definition cannot be nil"
  | .obj propMap =>
      match mapLookup propMap "type" with
      | none => .error "property type is required"
      | some (.str typeStr) =>
          if !(validTypes.contains typeStr) then
            .error ("invalid property type '" ++ typeStr ++ "'")
          else
            match typeStr with
            | "string" => validateStringProperty propMap
            | "number" => validateNumericProperty propMap
            | "integer" => validateNumericProperty propMap
            | "array" => validateArrayProperty propMap
            | "object" => validateObjectProperty propMap
            | _ => .ok ()
      | some _ => .error "property type must be a string"
  | _ => .error "property must be a map[string]interface\x7b\x7d"

/-- validation.go: `ValidateToolSchema`. -/
def ValidateToolSchema (schema : ToolSchema) : Except String Unit :=
  if schema.type = "" then .error "schema type is required"
  else if schema.type ≠ "object" then
    .error ("schema type must be 'object', got '" ++ schema.type ++ "'")
  else
    match schema.properties with
    | none => .error "schema properties cannot be nil"
    | some props =>
        if props.length = 0 then .error "schema must have at least one property"
        else do
          firstError (fun required =>
            match mapLookup props required with
            | none =>
                Except.error ("required property '" ++ required ++
                  "' not found in schema properties")
            | some _ => Except.ok ()) schema.required
          firstError (fun p =>
            match validateProperty p.1 p.2 with
            | .error e => Except.error ("invalid property '" ++ p.1 ++ "': " ++ e)
            | .ok _ => Except.ok ()) props

/-- validation.go: the `int64(floatVal)` conversion. It truncates toward
zero when the truncated value is representable in int64; for an
out-of-range value the Go specification leaves the result
implementation-dependent, and the model follows the amd64 behaviour (the
sentinel -2^63). No theorem below relies on the out-of-range result beyond
what every implementation shares: an int64 result always converts back to
a float64 inside [-2^63, 2^63], so an integral value of magnitude above
2^63 can never pass the round-trip equality check. -/
def goInt64OfFloat (x : Rat) : Int :=
  if -(2 ^ 63) ≤ x.num.tdiv (x.den : Int) ∧
      x.num.tdiv (x.den : Int) ≤ 2 ^ 63 - 1 then
    x.num.tdiv (x.den : Int)
  else -(2 ^ 63)

/-- validation.go: `float64(int64(floatVal))` — the round-trip value the
integer type check compares against. The back conversion to float64 is
exact for every value this truncation produces from an actual float64
input: an integer below 2^53 in magnitude, a float64 that was already
integral, or the sentinel -2^63. -/
def ratTrunc (x : Rat) : Rat :=
  ((goInt64OfFloat x : Int) : Rat)

/-- validation.go: `validateNumberValue`. The `minimum`/`maximum` assertions
are unchecked in Go (`min.(float64)`), so a non-number bound is a panic. -/
def validateNumberValue (name : String) (value : Rat)
    (prop : List (String × Value)) : Except String Unit := do
  match mapLookup prop "minimum" with
  | none => Except.ok ()
  | some (.num mn) =>
      if value < mn then
        Except.error ("parameter '" ++ name ++ "' must be >= the minimum")
      else Except.ok ()
  | some _ => goPanic "minimum is not a float64"
  match mapLookup prop "maximum" with
  | none => Except.ok ()
  | some (.num mx) =>
      if value > mx then
        Except.error ("parameter '" ++ name ++ "' must be <= the maximum")
      else Except.ok ()
  | some _ => goPanic "maximum is not a float64"

/-- validation.go: `validateStringValue`. The enum membership scan uses a
checked string assertion per member, but when no member matches, building
the error text asserts every member is a string (a panic on a non-string
member); the joined enum text is elided here. Go measures length with
`len`, the UTF-8 byte count. -/
def validateStringValue (name : String) (value : String)
    (prop : List (String × Value)) : Except String Unit := do
  match mapLookup prop "enum" with
  | none => Except.ok ()
  | some (.arr enumSlice) =>
      if enumSlice.any (fun v =>
          match v with
          | .str s => s = value
          | _ => false) then Except.ok ()
      else if enumSlice.all (fun v =>
          match v with
          | .str _ => true
          | _ => false) then
        Except.error ("parameter '" ++ name ++ "' must be one of the enum values")
      else goPanic "enum member is not a string"
  | some _ => goPanic "enum is not a slice"
  match mapLookup prop "minLength" with
  | none => Except.ok ()
  | some (.num mn) =>
      if (value.utf8ByteSize : Rat) < mn then
        Except.error ("parameter '" ++ name ++ "' is shorter than minLength")
      else Except.ok ()
  | some _ => goPanic "minLength is not a float64"
  match mapLookup prop "maxLength" with
  | none => Except.ok ()
  | some (.num mx) =>
      if (value.utf8ByteSize : Rat) > mx then
        Except.error ("parameter '" ++ name ++ "' is longer than maxLength")
      else Except.ok ()
  | some _ => goPanic "maxLength is not a float64"

/-- Go `interface\x7b\x7d` equality between values usable as map keys: only
scalar values compare equal (and only within the same dynamic type). -/
def scalarEq (a b : Value) : Bool :=
  match a, b with
  | .null, .null => true
  | .bool x, .bool y => x == y
  | .num x, .num y => x == y
  | .int x, .int y => x == y
  | .str x, .str y => x == y
  | _, _ => false

/-- Whether a value may be used as a Go map key without panicking
(slices and maps are unhashable). -/
def comparableValue : Value → Bool
  | .arr _ => false
  | .obj _ => false
  | _ => true

/-- validation.go: the `uniqueItems` scan inside `validateArrayValue` — a
`seen` map keyed by the items, failing at the first duplicate with its
index. An unhashable item panics at the map lookup. -/
def uniqueScan (name : String) (seen : List Value) (i : Nat) :
    List Value → Except String Unit
  | [] => .ok ()
  | item :: rest =>
      if !comparableValue item then goPanic "unhashable type used as map key"
      else if seen.any (scalarEq item) then
        .error ("parameter '" ++ name ++
          "' must have unique items, duplicate found at index " ++ toString i)
      else uniqueScan name (item :: seen) (i + 1) rest

/-- validation.go: `validateArrayValue`. The `minItems`/`maxItems`/
`uniqueItems` assertions are unchecked in Go, so a wrongly-typed constraint
is a panic. -/
def validateArrayValue (name : String) (value : List Value)
    (prop : List (String × Value)) : Except String Unit := do
  match mapLookup prop "minItems" with
  | none => Except.ok ()
  | some (.num mn) =>
      if (value.length : Rat) < mn then
        Except.error ("parameter '" ++ name ++ "' has fewer than minItems items")
      else Except.ok ()
  | some _ => goPanic "minItems is not a float64"
  match mapLookup prop "maxItems" with
  | none => Except.ok ()
  | some (.num mx) =>
      if (value.length : Rat) > mx then
        Except.error ("parameter '" ++ name ++ "' has more than maxItems items")
      else Except.ok ()
  | some _ => goPanic "maxItems is not a float64"
  match mapLookup prop "uniqueItems" with
  | none => Except.ok ()
  | some (.bool shouldBeUnique) =>
      if shouldBeUnique then uniqueScan name [] 0 value else Except.ok ()
  | some _ => goPanic "uniqueItems is not a bool"

/-- validation.go: `validateParameterValue` — dynamic type check per declared
kind, then the kind-specific instance checks. For `integer`, a `float64` is
accepted only when it equals its truncation toward zero; a Go `int` is
accepted directly; both then go through the numeric bound checks. -/
def validateParameterValue (name : String) (value : Value) (property : Value) :
    Except String Unit :=
  match property with
  | .obj propMap =>
      match mapLookup propMap "type" with
      | none => .error ("property type not defined for '" ++ name ++ "'")
      | some (.str typeStr) =>
          match typeStr with
          | "string" =>
              match value with
              | .str s => validateStringValue name s propMap
              | _ => .error ("parameter '" ++ name ++ "' must be a string")
          | "number" =>
              match value with
              | .num x => validateNumberValue name x propMap
              | _ => .error ("parameter '" ++ name ++ "' must be a number")
          | "integer" =>
              match value with
              | .num x =>
                  if x ≠ ratTrunc x then
                    .error ("parameter '" ++ name ++ "' must be an integer")
                  else validateNumberValue name x propMap
              | .int n => validateNumberValue name (n : Rat) propMap
              | _ => .error ("parameter '" ++ name ++ "' must be an integer")
          | "boolean" =>
              match value with
              | .bool _ => .ok ()
              | _ => .error ("parameter '" ++ name ++ "' must be a boolean")
          | "array" =>
              match value with
              | .arr xs => validateArrayValue name xs propMap
              | _ => .error ("parameter '" ++ name ++ "' must be an array")
          | "object" =>
              match value with
              | .obj _ => .ok ()
              | _ => .error ("parameter '" ++ name ++ "' must be an object")
          | _ =>
              .error ("unsupported type '" ++ typeStr ++ "' for parameter '" ++
                name ++ "'")
      | some _ => .error ("invalid type definition for '" ++ name ++ "'")
  | _ => .error ("invalid property definition for '" ++ name ++ "'")

/-- validation.go: `ValidateToolParameters` — validate the schema itself,
substitute an empty map for nil arguments, check every required name is
present, then check every supplied argument is declared and valid
(closed world: an unknown argument is an error). -/
def ValidateToolParameters (params : Option (List (String × Value)))
    (schema : ToolSchema) : Except String Unit :=
  match ValidateToolSchema schema with
  | .error e => .error ("invalid schema: " ++ e)
  | .ok _ =>
      let ps := params.getD []
      do
        firstError (fun required =>
          match mapLookup ps required with
          | none =>
              Except.error ("required parameter '" ++ required ++ "' is missing")
          | some _ => Except.ok ()) schema.required
        firstError (fun p =>
          match mapLookup (schema.properties.getD []) p.1 with
          | none => Except.error ("unknown parameter '" ++ p.1 ++ "'")
          | some propDef => validateParameterValue p.1 p.2 propDef) ps

/-! ## Concrete fixtures used by the witnesses -/

/-- A well-formed one-property schema (a string property `query`, required). -/
def sampleSchema : ToolSchema :=
  { type := "object",
    properties := some [("query", Value.obj [("type", Value.str "string")])],
    required := ["query"] }

def sampleServerInfo : ServerInfo := { name := "mcp-go-template", version := "1.0.0" }

def sampleCaps : ServerCapabilities :=
  { logging := none, prompts := none, resources := none,
    tools := some { listChanged := false }, experimental := none }

def okResult : CallToolResult :=
  { content := [{ type := "text", text := "ok", data := "", mimeType := "",
                  blob := none }],
    isError := false }

def okResult2 : CallToolResult :=
  { content := [{ type := "text", text := "ok2", data := "", mimeType := "",
                  blob := none }],
    isError := false }

/-- A tool that always succeeds. -/
def echoTool : ToolHandler :=
  { definition := some { name := "echo", description := "echoes",
                         inputSchema := sampleSchema },
    execute := fun _ => .ok okResult }

/-- A tool whose execute operation always faults. -/
def failTool : ToolHandler :=
  { definition := some { name := "boom", description := "always faults",
                         inputSchema := sampleSchema },
    execute := fun _ => .error "boom" }

/-- Two distinct handlers declaring the same tool name `a`. -/
def toolDefA1 : Tool :=
  { name := "a", description := "first", inputSchema := sampleSchema }

def toolDefA2 : Tool :=
  { name := "a", description := "second", inputSchema := sampleSchema }

def toolA1 : ToolHandler :=
  { definition := some toolDefA1, execute := fun _ => .ok okResult }

def toolA2 : ToolHandler :=
  { definition := some toolDefA2, execute := fun _ => .ok okResult2 }

/-- A session with the given tool table and initialization flag. -/
def sessionWith (tools : List (String × ToolHandler)) (flag : Bool) : BaseHandler :=
  { serverInfo := sampleServerInfo, capabilities := sampleCaps,
    tools := tools, resources := [], prompts := [], initialized := flag }

def samplePrompt : Prompt := { name := "p", description := "a prompt", arguments := [] }

def promptH1 : PromptHandler :=
  { definition := some samplePrompt,
    generate := fun _ => .ok { description := "", messages := [] } }

def promptH2 : PromptHandler :=
  { definition := some samplePrompt,
    generate := fun _ => .ok { description := "other", messages := [] } }

def emptyNamePromptH : PromptHandler :=
  { definition := some { name := "", description := "", arguments := [] },
    generate := fun _ => .ok { description := "", messages := [] } }

/-- A registry already holding the prompt `p`. -/
def regWithP : Registry := { prompts := [("p", promptH1)] }

/-! ## Helper lemmas -/

theorem mapLookup_insert_self {α : Type} (m : List (String × α)) (k : String)
    (v : α) : mapLookup (mapInsert m k v) k = some v := by
  induction m with
  | nil => simp [mapInsert, mapLookup]
  | cons hd tl ih =>
      by_cases hk : hd.1 = k
      · simp [mapInsert, mapLookup, hk]
      · simpa [mapInsert, mapLookup, hk] using ih

theorem mapLookup_eq_none_iff {α : Type} (m : List (String × α)) (k : String) :
    mapLookup m k = none ↔ k ∉ m.map Prod.fst := by
  induction m with
  | nil => simp [mapLookup]
  | cons hd tl ih =>
      by_cases hk : hd.1 = k
      · simp [mapLookup, hk]
      · simp [mapLookup, hk, ih, Ne.symm hk]

theorem mapInsert_keys_of_lookup_none {α : Type} (m : List (String × α))
    (k : String) (v : α) (h : mapLookup m k = none) :
    (mapInsert m k v).map Prod.fst = m.map Prod.fst ++ [k] := by
  induction m with
  | nil => simp [mapInsert]
  | cons hd tl ih =>
      simp only [mapLookup] at h
      by_cases hk : hd.1 = k
      · simp [hk] at h
      · simp only [mapInsert, hk, if_false, List.map_cons]
        rw [ih (by simpa [hk] using h)]
        simp

theorem firstError_isErr_of_mem {α : Type} (f : α → Except String Unit)
    (l : List α) (x : α) (hx : x ∈ l) (hf : isErr (f x) = true) :
    isErr (firstError f l) = true := by
  induction l with
  | nil => cases hx
  | cons hd tl ih =>
      rcases List.mem_cons.mp hx with h | h
      · subst h
        cases hfx : f x with
        | error e => simp [firstError, hfx, isErr]
        | ok u => rw [hfx] at hf; simp [isErr] at hf
      · cases hfx : f hd with
        | error e => simp [firstError, hfx, isErr]
        | ok u => simpa [firstError, hfx] using ih h

theorem isErr_bind_left {a : Except String Unit} {b : Unit → Except String Unit}
    (h : isErr a = true) : isErr (a >>= b) = true := by
  cases a with
  | error e => rfl
  | ok u => simp [isErr] at h

theorem bind_ok_left {α : Type} {a : Except String Unit}
    {b : Unit → Except String α} (h : a = .ok ()) : (a >>= b) = b () := by
  subst h; rfl

theorem handleNotification_none (h : BaseHandler) (m : Message) :
    (handleNotification h m).2 = none := by
  unfold handleNotification
  split <;> rfl

/-! ## Claims -/

/-- C4: For every Message value, exactly one of is-request, is-notification,
is-response, or none-of-the-above holds, where is-request holds iff method
is present (non-empty) and id is present, is-notification iff method is
present and id is absent, and is-response iff method is absent and id is
present. -/
theorem C4_message_classification (m : Message) :
    ((m.IsRequest).toNat + (m.IsNotification).toNat + (m.IsResponse).toNat +
      (!m.IsRequest && !m.IsNotification && !m.IsResponse).toNat = 1) ∧
    (m.IsRequest = true ↔ (m.method ≠ "" ∧ m.id.isSome = true)) ∧
    (m.IsNotification = true ↔ (m.method ≠ "" ∧ m.id = none)) ∧
    (m.IsResponse = true ↔ (m.method = "" ∧ m.id.isSome = true)) := by
  obtain ⟨j, id, method, p, r, e⟩ := m
  by_cases hm : method = ""
  · have hbe : (method == "") = true := by simp [hm]
    cases id <;>
      simp [Message.IsRequest, Message.IsNotification, Message.IsResponse, bne,
        hm, hbe]
  · have hbe : (method == "") = false := by simp [hm]
    cases id <;>
      simp [Message.IsRequest, Message.IsNotification, Message.IsResponse, bne,
        hm, hbe]

/-- C9: For every session state and every notification message (a message
with a method and no id), handling it never produces a response message,
whatever the notification method is. -/
theorem C9_notification_no_response (h : BaseHandler) (m : Message)
    (hn : m.IsNotification = true) :
    (BaseHandler.HandleMessage h (some m)).2 = none := by
  have hparts : (m.method ≠ "") ∧ m.id = none := by
    obtain ⟨j, id, method, p, r, e⟩ := m
    simpa [Message.IsNotification, Option.isNone_iff_eq_none] using hn
  have hreq : m.IsRequest = false := by
    simp [Message.IsRequest, hparts.2]
  simp only [BaseHandler.HandleMessage, hreq, hn, Bool.false_eq_true, if_false,
    if_true]
  exact handleNotification_none h m

/-- C9 witness: a concrete `initialized` notification on a fresh session
yields no response. -/
theorem C9_witness :
    (BaseHandler.HandleMessage (sessionWith [] false)
      (some (NewNotification "initialized" none))).2 = none :=
  C9_notification_no_response (sessionWith [] false)
    (NewNotification "initialized" none) rfl

/-- Scenario D of the spec: a tools/call request for an unregistered tool
name, on a session that is already Ready. -/
def scenarioD : Message :=
  NewRequest (some (.str "3")) "tools/call"
    (some (.obj [("name", .str "nonexistent"), ("arguments", .obj [])]))

/-- C1 counterexample: on a Ready session, the Scenario D request yields an
error response whose code is InternalError (-32603), not the tool-not-found
code (-32003): `CallTool` returns a plain Go error and `handleRequest`
wraps every such error as InternalError. -/
theorem C1_counterexample :
    (BaseHandler.HandleMessage (sessionWith [] true) (some scenarioD)).2 =
      some (NewErrorResponse (some (.str "3")) InternalError "tool call failed"
        (some (.str "tool 'nonexistent' not found"))) ∧
    InternalError ≠ ToolNotFound :=
  ⟨rfl, by decide⟩

/-- C1 (amended): for every Ready session, a tools/call request whose params
name a tool not present in the tool table produces an error response with
code InternalError (-32603), message `tool call failed`, and the
tool-not-found detail in the data field. -/
theorem C1_unknown_tool_internal_error (h : BaseHandler) (m : Message)
    (i : RequestID) (v : Value) (p : CallToolParams)
    (hinit : h.initialized = true)
    (hm : m.method = "tools/call") (hid : m.id = some i) (hp : m.params = some v)
    (hdec : decodeCallToolParams v = .ok p)
    (habs : mapLookup h.tools p.name = none) :
    (BaseHandler.HandleMessage h (some m)).2 =
      some (NewErrorResponse (some i) InternalError "tool call failed"
        (some (.str ("tool '" ++ p.name ++ "' not found")))) := by
  obtain ⟨j, id, method, pa, r, e⟩ := m
  simp only at hm hid hp
  subst hm; subst hid; subst hp
  simp [BaseHandler.HandleMessage, Message.IsRequest, handleRequest,
    Message.unmarshalParamsWith, hdec, BaseHandler.CallTool, hinit, habs]

/-- C1 witness: the amended statement applied to the Scenario D request. -/
theorem C1_witness :
    (BaseHandler.HandleMessage (sessionWith [] true) (some scenarioD)).2 =
      some (NewErrorResponse (some (.str "3")) InternalError "tool call failed"
        (some (.str ("tool '" ++ "nonexistent" ++ "' not found")))) :=
  C1_unknown_tool_internal_error (sessionWith [] true) scenarioD
    (.str "3") (.obj [("name", .str "nonexistent"), ("arguments", .obj [])])
    { name := "nonexistent", arguments := some [] }
    rfl rfl rfl rfl rfl rfl

/-- C2 counterexample: the dispatcher-level tool table does NOT reject a
duplicate name — registering a second handler under the already-present
name `a` succeeds and overwrites the entry. -/
theorem C2_counterexample :
    BaseHandler.RegisterTool (sessionWith [("a", toolA1)] false) toolA2 =
      .ok (sessionWith [("a", toolA2)] false) := rfl

/-- C2 (amended): the prompts Registry rejects registration when the
declared name is empty or already present (an error result, and no updated
mapping is produced, so registered names stay unique); the dispatcher-level
RegisterTool checks only for a nil definition or empty name, and a
duplicate name succeeds, overwriting the stored handler. -/
theorem C2_registration_contract :
    (∀ (r : Registry) (handler : PromptHandler) (p : Prompt),
        handler.definition = some p → p.name = "" →
        isErr (Registry.Register r handler) = true) ∧
    (∀ (r : Registry) (handler : PromptHandler) (p : Prompt)
        (prev : PromptHandler),
        handler.definition = some p → mapLookup r.prompts p.name = some prev →
        isErr (Registry.Register r handler) = true) ∧
    (∀ (r : Registry) (handler : PromptHandler) (r2 : Registry),
        (r.prompts.map Prod.fst).Nodup → Registry.Register r handler = .ok r2 →
        (r2.prompts.map Prod.fst).Nodup) ∧
    (∀ (h : BaseHandler) (th : ToolHandler) (t : Tool),
        th.definition = some t → t.name ≠ "" →
        BaseHandler.RegisterTool h th =
          .ok { h with tools := mapInsert h.tools t.name th }) := by
  refine ⟨?_, ?_, ?_, ?_⟩
  · intro r handler p hdef hname
    simp [Registry.Register, hdef, hname, isErr]
  · intro r handler p prev hdef hlook
    by_cases hname : p.name = ""
    · simp [Registry.Register, hdef, hname, isErr]
    · simp [Registry.Register, hdef, hname, hlook, isErr]
  · intro r handler r2 hnodup hok
    cases hdef : handler.definition with
    | none => simp [Registry.Register, hdef] at hok
    | some p =>
        by_cases hname : p.name = ""
        · simp [Registry.Register, hdef, hname] at hok
        · cases hlook : mapLookup r.prompts p.name with
          | some prev => simp [Registry.Register, hdef, hname, hlook] at hok
          | none =>
              simp only [Registry.Register, hdef, hname, hlook, if_false,
                if_neg hname] at hok
              cases hok
              simp only [mapInsert_keys_of_lookup_none _ _ _ hlook]
              rw [List.nodup_append]
              refine ⟨hnodup, List.nodup_singleton _, ?_⟩
              intro a ha hb
              rw [List.mem_singleton] at hb
              subst hb
              exact (mapLookup_eq_none_iff _ _).mp hlook ha
  · intro h th t hdef hne
    simp [BaseHandler.RegisterTool, hdef, hne]

/-- C2 witness: registering a prompt whose name `p` is already present in a
concrete registry fails. -/
theorem C2_witness : isErr (Registry.Register regWithP promptH2) = true :=
  C2_registration_contract.2.1 regWithP promptH2 samplePrompt promptH1 rfl rfl

/-- C3: a tools/call request handled before the `initialized` notification
yields the not-initialized error response; the `initialized` notification
flips the session flag; and the same request afterwards yields a success
response (for a registered tool). -/
theorem C3_initialization_gate (h : BaseHandler) (m : Message) (i : RequestID)
    (v : Value) (p : CallToolParams) (th : ToolHandler)
    (hinit : h.initialized = false)
    (hm : m.method = "tools/call") (hid : m.id = some i) (hp : m.params = some v)
    (hdec : decodeCallToolParams v = .ok p)
    (htool : mapLookup h.tools p.name = some th) :
    (BaseHandler.HandleMessage h (some m)).2 =
      some (NewErrorResponse (some i) InternalError "tool call failed"
        (some (.str "handler not initialized"))) ∧
    (BaseHandler.HandleMessage h
      (some (NewNotification "initialized" none))).1.initialized = true ∧
    (∃ res,
      (BaseHandler.HandleMessage
        (BaseHandler.HandleMessage h
          (some (NewNotification "initialized" none))).1 (some m)).2 =
        some (NewSuccessResponse (some i) (.callToolResult res))) := by
  obtain ⟨j, id, method, pa, r, e⟩ := m
  simp only at hm hid hp
  subst hm; subst hid; subst hp
  have hstep : (BaseHandler.HandleMessage h
      (some (NewNotification "initialized" none))).1 =
      { h with initialized := true } := rfl
  refine ⟨?_, ?_, ?_⟩
  · simp [BaseHandler.HandleMessage, Message.IsRequest, handleRequest,
      Message.unmarshalParamsWith, hdec, BaseHandler.CallTool, hinit]
  · rw [hstep]
  · rw [hstep]
    cases hres : th.execute p.arguments with
    | error err =>
        refine ⟨⟨[⟨"text", "Tool execution failed: " ++ err, "", "", none⟩], true⟩, ?_⟩
        simp [BaseHandler.HandleMessage, Message.IsRequest, handleRequest,
          Message.unmarshalParamsWith, hdec, BaseHandler.CallTool, htool, hres]
    | ok res =>
        refine ⟨res, ?_⟩
        simp [BaseHandler.HandleMessage, Message.IsRequest, handleRequest,
          Message.unmarshalParamsWith, hdec, BaseHandler.CallTool, htool, hres]

/-- C3 witness: on a fresh (not yet initialized) session holding the tool
`echo`, the concrete tools/call request fails, and after the `initialized`
notification the same request produces a success response. -/
theorem C3_witness :
    (BaseHandler.HandleMessage (sessionWith [("echo", echoTool)] false)
      (some (NewRequest (some (.str "2")) "tools/call"
        (some (.obj [("name", .str "echo"), ("arguments", .obj [])]))))).2 =
      some (NewErrorResponse (some (.str "2")) InternalError "tool call failed"
        (some (.str "handler not initialized"))) ∧
    (BaseHandler.HandleMessage (sessionWith [("echo", echoTool)] false)
      (some (NewNotification "initialized" none))).1.initialized = true ∧
    (∃ res,
      (BaseHandler.HandleMessage
        (BaseHandler.HandleMessage (sessionWith [("echo", echoTool)] false)
          (some (NewNotification "initialized" none))).1
        (some (NewRequest (some (.str "2")) "tools/call"
          (some (.obj [("name", .str "echo"), ("arguments", .obj [])]))))).2 =
        some (NewSuccessResponse (some (.str "2")) (.callToolResult res))) :=
  C3_initialization_gate (sessionWith [("echo", echoTool)] false)
    (NewRequest (some (.str "2")) "tools/call"
      (some (.obj [("name", .str "echo"), ("arguments", .obj [])])))
    (.str "2") (.obj [("name", .str "echo"), ("arguments", .obj [])])
    { name := "echo", arguments := some [] } echoTool
    rfl rfl rfl rfl rfl rfl

/-- C7: on a Ready session, when the execute operation of a registered tool
faults, the dispatcher returns a success response (not a protocol error)
whose payload has isError set and carries the fault text. -/
theorem C7_execute_fault_is_data (h : BaseHandler) (m : Message) (i : RequestID)
    (v : Value) (p : CallToolParams) (th : ToolHandler) (e : String)
    (hinit : h.initialized = true)
    (hm : m.method = "tools/call") (hid : m.id = some i) (hp : m.params = some v)
    (hdec : decodeCallToolParams v = .ok p)
    (htool : mapLookup h.tools p.name = some th)
    (hexec : th.execute p.arguments = .error e) :
    (BaseHandler.HandleMessage h (some m)).2 =
      some (NewSuccessResponse (some i) (.callToolResult
        { content := [{ type := "text",
                        text := "Tool execution failed: " ++ e,
                        data := "", mimeType := "", blob := none }],
          isError := true })) := by
  obtain ⟨j, id, method, pa, r, er⟩ := m
  simp only at hm hid hp
  subst hm; subst hid; subst hp
  simp [BaseHandler.HandleMessage, Message.IsRequest, handleRequest,
    Message.unmarshalParamsWith, hdec, BaseHandler.CallTool, hinit, htool, hexec]

/-- C7 witness: the always-faulting tool `boom` on a Ready session produces a
success response flagged isError with the fault text. -/
theorem C7_witness :
    (BaseHandler.HandleMessage (sessionWith [("boom", failTool)] true)
      (some (NewRequest (some (.str "4")) "tools/call"
        (some (.obj [("name", .str "boom"), ("arguments", .obj [])]))))).2 =
      some (NewSuccessResponse (some (.str "4")) (.callToolResult
        { content := [{ type := "text",
                        text := "Tool execution failed: " ++ "boom",
                        data := "", mimeType := "", blob := none }],
          isError := true })) :=
  C7_execute_fault_is_data (sessionWith [("boom", failTool)] true)
    (NewRequest (some (.str "4")) "tools/call"
      (some (.obj [("name", .str "boom"), ("arguments", .obj [])])))
    (.str "4") (.obj [("name", .str "boom"), ("arguments", .obj [])])
    { name := "boom", arguments := some [] } failTool "boom"
    rfl rfl rfl rfl rfl rfl rfl

/-- C10: registering a second tool handler under an already-present
non-empty name succeeds and replaces the prior handler, and a subsequent
tools/call for that name invokes the most recently registered handler. -/
theorem C10_duplicate_register_replaces (h : BaseHandler)
    (th1 th2 : ToolHandler) (t1 t2 : Tool)
    (args : Option (List (String × Value))) (res : CallToolResult)
    (hd1 : th1.definition = some t1) (hd2 : th2.definition = some t2)
    (hname : t2.name = t1.name) (hne : t1.name ≠ "")
    (hexec : th2.execute args = .ok res) :
    BaseHandler.RegisterTool h th1 =
      .ok { h with tools := mapInsert h.tools t1.name th1 } ∧
    BaseHandler.RegisterTool { h with tools := mapInsert h.tools t1.name th1 }
        th2 =
      .ok { h with tools :=
              mapInsert (mapInsert h.tools t1.name th1) t1.name th2 } ∧
    mapLookup (mapInsert (mapInsert h.tools t1.name th1) t1.name th2) t1.name =
      some th2 ∧
    BaseHandler.CallTool
      { h with tools := mapInsert (mapInsert h.tools t1.name th1) t1.name th2,
               initialized := true }
      { name := t1.name, arguments := args } = .ok res := by
  refine ⟨?_, ?_, ?_, ?_⟩
  · simp [BaseHandler.RegisterTool, hd1, hne]
  · simp [BaseHandler.RegisterTool, hd2, hname, hne]
  · exact mapLookup_insert_self _ _ _
  · simp [BaseHandler.CallTool, mapLookup_insert_self, hexec]

/-- C10 witness: re-registering the name `a` with a second handler and then
calling `a` runs the second handler. -/
theorem C10_witness :
    BaseHandler.CallTool
      { sessionWith [] false with
          tools := mapInsert (mapInsert [] "a" toolA1) "a" toolA2,
          initialized := true }
      { name := "a", arguments := none } = .ok okResult2 :=
  (C10_duplicate_register_replaces (sessionWith [] false) toolA1 toolA2
    toolDefA1 toolDefA2 none okResult2 rfl rfl rfl (by decide) rfl).2.2.2

/-! ## Validation claims -/

theorem isErr_bind_of_right {a : Except String Unit}
    {b : Unit → Except String Unit} (h : ∀ u, isErr (b u) = true) :
    isErr (a >>= b) = true := by
  cases a with
  | error e => rfl
  | ok u => exact h u

/-- C5: against a well-formed schema, validate-arguments fails when a
required name is absent from the arguments, and fails when a supplied
argument name is not declared among the schema properties. -/
theorem C5_required_and_unknown_arguments (args : List (String × Value))
    (schema : ToolSchema) (hschema : ValidateToolSchema schema = .ok ()) :
    ((∃ r ∈ schema.required, mapLookup args r = none) →
        isErr (ValidateToolParameters (some args) schema) = true) ∧
    ((∃ p ∈ args, mapLookup (schema.properties.getD []) p.1 = none) →
        isErr (ValidateToolParameters (some args) schema) = true) := by
  constructor
  · rintro ⟨r, hr, hnone⟩
    simp only [ValidateToolParameters, hschema, Option.getD_some]
    apply isErr_bind_left
    exact firstError_isErr_of_mem _ _ r hr (by simp [hnone, isErr])
  · rintro ⟨p, hp, hnone⟩
    simp only [ValidateToolParameters, hschema, Option.getD_some]
    apply isErr_bind_of_right
    intro u
    exact firstError_isErr_of_mem _ _ p hp (by simp [hnone, isErr])

/-- C5 witness: against the concrete schema requiring `query`, an empty
argument map is rejected. -/
theorem C5_witness :
    isErr (ValidateToolParameters (some []) sampleSchema) = true :=
  (C5_required_and_unknown_arguments [] sampleSchema rfl).1
    ⟨"query", by simp [sampleSchema], rfl⟩

theorem ok_bind {α β : Type} (a : α) (f : α → Except String β) :
    ((Except.ok a : Except String α) >>= f) = f a := rfl

/-- A property value that declares an unrecognised kind: an object whose
`type` entry is a string outside `validTypes`. -/
def declaresUnknownKind (v : Value) : Prop :=
  ∃ m t, v = .obj m ∧ mapLookup m "type" = some (.str t) ∧ t ∉ validTypes

/-- A numeric property whose declared `minimum` exceeds its `maximum`. -/
def numericBadBounds (v : Value) : Prop :=
  ∃ m t mn mx, v = .obj m ∧ mapLookup m "type" = some (.str t) ∧
    (t = "number" ∨ t = "integer") ∧
    mapLookup m "minimum" = some (.num mn) ∧
    mapLookup m "maximum" = some (.num mx) ∧ mn > mx

/-- C6: validate-schema errors when the type literal is not `object`, when
the property map is nil or empty, when a required name is missing from the
property map, when a property declares an unrecognised kind, or when a
numeric property declares minimum greater than maximum. -/
theorem C6_schema_rejections (schema : ToolSchema)
    (h : schema.type ≠ "object" ∨ schema.properties = none ∨
        schema.properties = some [] ∨
        (∃ r ∈ schema.required,
          mapLookup (schema.properties.getD []) r = none) ∨
        (∃ p ∈ schema.properties.getD [], declaresUnknownKind p.2) ∨
        (∃ p ∈ schema.properties.getD [], numericBadBounds p.2)) :
    isErr (ValidateToolSchema schema) = true := by
  obtain ⟨stype, sprops, sreq⟩ := schema
  simp only at h
  by_cases ht0 : stype = ""
  · simp [ValidateToolSchema, ht0, isErr]
  by_cases ht : stype = "object"
  swap
  · simp [ValidateToolSchema, ht0, ht, isErr]
  subst ht
  cases sprops with
  | none => simp [ValidateToolSchema, isErr]
  | some props =>
      cases props with
      | nil => simp [ValidateToolSchema, isErr]
      | cons q qs =>
          have hred : ValidateToolSchema
              { type := "object", properties := some (q :: qs),
                required := sreq } =
              (do
                firstError (fun required =>
                  match mapLookup (q :: qs) required with
                  | none =>
                      Except.error ("required property '" ++ required ++
                        "' not found in schema properties")
                  | some _ => Except.ok ()) sreq
                firstError (fun p =>
                  match validateProperty p.1 p.2 with
                  | .error e =>
                      Except.error ("invalid property '" ++ p.1 ++ "': " ++ e)
                  | .ok _ => Except.ok ()) (q :: qs)) := by
            simp [ValidateToolSchema]
          rw [hred]
          rcases h with h | h | h | h | h | h
          · exact absurd rfl h
          · cases h
          · cases h
          · obtain ⟨r, hr, hnone⟩ := h
            simp only [Option.getD_some] at hnone
            apply isErr_bind_left
            exact firstError_isErr_of_mem _ _ r hr (by simp [hnone, isErr])
          · obtain ⟨p, hpmem, m, t, hv, htype, hcont⟩ := h
            simp only [Option.getD_some] at hpmem
            apply isErr_bind_of_right
            intro u
            refine firstError_isErr_of_mem _ _ p hpmem ?_
            simp [hv, validateProperty, htype, hcont, isErr]
          · obtain ⟨p, hpmem, m, t, mn, mx, hv, htype, htnum, hmn, hmx, hgt⟩ := h
            simp only [Option.getD_some] at hpmem
            apply isErr_bind_of_right
            intro u
            refine firstError_isErr_of_mem _ _ p hpmem ?_
            have hminf : getNumField m "minimum" = Except.ok (some mn) := by
              simp [getNumField, hmn]
            have hmaxf : getNumField m "maximum" = Except.ok (some mx) := by
              simp [getNumField, hmx]
            have hnum : validateNumericProperty m =
                Except.error "minimum cannot be greater than maximum" := by
              unfold validateNumericProperty
              rw [hminf, hmaxf]
              simp only [ok_bind]
              rw [if_pos hgt]
              rfl
            rcases htnum with rfl | rfl <;>
              simp [hv, validateProperty, htype, validTypes, hnum, isErr]

/-- A schema whose single property is numeric with minimum 7 above
maximum 3. -/
def badBoundsSchema : ToolSchema :=
  { type := "object",
    properties := some [("n", Value.obj [("type", Value.str "number"),
      ("minimum", Value.num 7), ("maximum", Value.num 3)])],
    required := [] }

theorem C6_witness : isErr (ValidateToolSchema badBoundsSchema) = true :=
  C6_schema_rejections badBoundsSchema
    (Or.inr (Or.inr (Or.inr (Or.inr (Or.inr
      ⟨("n", Value.obj [("type", Value.str "number"), ("minimum", Value.num 7),
          ("maximum", Value.num 3)]),
        by simp [badBoundsSchema],
        [("type", Value.str "number"), ("minimum", Value.num 7),
          ("maximum", Value.num 3)], "number", 7, 3,
        rfl, rfl, Or.inl rfl, rfl, rfl, by norm_num⟩)))))

end MCPGo
